import Mathlib

/-!
Shallow embedding of `src/homebridge-http-temperature-humidity.ts`, the single
source file of the homebridge-advanced-http-temperature-humidity plugin.

The plugin polls a remote HTTP endpoint and caches the last reading in the
mutable field `accessoryState`.  The embedding models:

  * JavaScript runtime values (`Js`) as far as the plugin observes them:
    JSON numbers (as rationals), strings, objects (association lists), and
    the `undefined` value produced by accessing a missing property.  The
    TypeScript declarations claim `number` fields, but the unchecked cast
    `response.data as TemperatureAndHumidity` performs no runtime validation,
    so the fields of the cache must be modelled as arbitrary JS values.
  * the outcome of one HTTP GET (`HttpOutcome`): a transport-level failure,
    or a response with a status code and a body, the body classified by
    whether its text is valid JSON.
  * the axios client (`axiosGet`), modelled from the documented default
    behaviour of the axios dependency (external to this repository): the
    promise rejects on a network error and on a non-2xx status (default
    `validateStatus`), and resolves otherwise, with `response.data` being the
    JSON-parsed body when the body parses and the raw body string when it
    does not (default silent JSON parsing, `responseType` unset).
  * the methods of `HttpTemperatureHumidityAccessory`: `callServer`,
    `updateAllStates`, the `setInterval` tick callback, the two
    characteristic getters, `getServices`, the constructor's handler
    registration, and the configuration defaulting on line 56.

Log calls are modelled structurally: each call site becomes one `LogEntry`
constructor carrying the dynamic data interpolated into its message.
-/

namespace HttpTempHum

/-- JavaScript values as observed by the plugin: JSON numbers (modelled as
rationals), strings, objects as association lists of fields, and `undefined`
as produced by reading a missing property.  (JSON `null`, booleans and arrays
never occur in the scenarios of the specification and are not modelled.) -/
inductive Js where
  | num (q : ℚ)
  | str (s : String)
  | obj (fields : List (String × Js))
  | jsUndefined

/-- JavaScript property access `v["k"]`: field lookup on an object, returning
`undefined` when the key is absent; property access on a number or a string
with the keys used here also yields `undefined`. -/
def Js.get : Js → String → Js
  | .obj fields, k => (fields.lookup k).getD Js.jsUndefined
  | _, _ => .jsUndefined

/-- A JavaScript `Error` as observed by this code: only its `message` is read
(line 148 of the source). -/
structure JsError where
  message : String
deriving DecidableEq

/-- An HTTP response body, classified by whether its text is valid JSON:
`json j` is a body whose text parses to the JSON value `j`; `raw s` is a body
whose text `s` is not valid JSON. -/
inductive Body where
  | json (j : Js)
  | raw (s : String)

/-- Outcome of one underlying HTTP GET request: either a transport-level
(network) failure with an error message, or a response carrying a status code
and a body. -/
inductive HttpOutcome where
  | netError (message : String)
  | response (status : Nat) (body : Body)

/-- `axios.get(url)` under axios's default configuration, modelled from the
documented behaviour of the axios dependency (the dependency itself is not
part of this repository): reject on a network error; reject on a status
outside [200, 300) (default `validateStatus`); otherwise resolve with
`response.data`, which is the JSON-parsed body when the body text parses and
the raw body string when it does not (default silent JSON parsing with
`responseType` unset). -/
def axiosGet : HttpOutcome → Except JsError Js
  | .netError m => .error ⟨m⟩
  | .response status body =>
      if 200 ≤ status ∧ status < 300 then
        .ok (match body with
              | .json j => j
              | .raw s => .str s)
      else
        .error ⟨"Request failed with status code " ++ toString status⟩

/-- `callServer` (source lines 154-162): awaits `axios.get(this.url)`; on
resolution the `then` callback stores `response.data` via the unchecked cast
`as TemperatureAndHumidity` (no runtime validation, so the resolved value is
whatever `response.data` was); a rejection of the GET propagates out of the
`await` (there is no catch inside `callServer`). -/
def callServer (out : HttpOutcome) : Except JsError Js :=
  match axiosGet out with
  | .ok data => .ok data
  | .error e => .error e

/-- The mutable cache `accessoryState` (source lines 38-41).  The TypeScript
field types say `number`, but assignments flow from the unchecked cast in
`callServer`, so the fields are modelled as arbitrary JS values. -/
structure AccessoryState where
  temperature : Js
  humidity : Js

/-- The initial value of `accessoryState`: `temperature: 0, humidity: 0`. -/
def initialAccessoryState : AccessoryState := ⟨.num 0, .num 0⟩

/-- One structural log entry per log call site in the source, carrying the
dynamic data interpolated into the message. -/
inductive LogEntry where
  /-- line 139: `log.debug('CallServerResponse: Temperature: ' + t + ' Humidity: ' + h)` -/
  | callServerResponse (temperature humidity : Js)
  /-- line 148: `log('updateAllStates Error : ' + error.message)` -/
  | updateAllStatesError (message : String)
  /-- line 89: `log.debug('Triggering updateAccessoryState')` -/
  | triggeringUpdate
  /-- line 125: `log('getCurrentTemperature: ' + currentTemperature)` -/
  | getCurrentTemperatureValue (value : Js)
  /-- line 131: `log('getCurrentRelativeHumidity: ' + currentRelativeHumidity)` -/
  | getCurrentRelativeHumidityValue (value : Js)

/-- Result of one call to `updateAllStates`: the boolean it resolves with,
the cache after the call, and the log entries it emitted. -/
structure UpdateResult where
  updated : Bool
  state : AccessoryState
  logs : List LogEntry

/-- `updateAllStates` (source lines 135-152): awaits `callServer`; the `then`
callback logs the delivered values and assigns `temperatureAndHumidity.temperature`
and `.humidity` into `accessoryState` and sets `updated := true`; the `catch`
callback logs `'updateAllStates Error : ' + error.message` and leaves the
cache untouched.  The error is swallowed, so the method always resolves,
returning `updated`. -/
def updateAllStates (st : AccessoryState) (out : HttpOutcome) : UpdateResult :=
  match callServer out with
  | .ok data =>
      { updated := true
        state := { temperature := data.get "temperature"
                   humidity := data.get "humidity" }
        logs := [.callServerResponse (data.get "temperature") (data.get "humidity")] }
  | .error e =>
      { updated := false
        state := st
        logs := [.updateAllStatesError e.message] }

/-- A push-style `updateCharacteristic` call issued to the host. -/
inductive HostUpdate where
  | temperature (value : Js)
  | humidity (value : Js)

/-- Result of one timer tick: the cache after it, the log entries, and the
`updateCharacteristic` calls issued to the host. -/
structure TickResult where
  updated : Bool
  state : AccessoryState
  logs : List LogEntry
  hostUpdates : List HostUpdate

/-- The `setInterval` callback (source lines 80-91): runs `updateAllStates`
and `then` — unconditionally, since `updateAllStates` never rejects — pushes
`accessoryState.temperature` to the host, pushes `accessoryState.humidity`
when `disableHumidity !== true`, and logs a debug line. -/
def tick (disableHumidity : Bool) (st : AccessoryState) (out : HttpOutcome) : TickResult :=
  let u := updateAllStates st out
  { updated := u.updated
    state := u.state
    logs := u.logs ++ [.triggeringUpdate]
    hostUpdates :=
      HostUpdate.temperature u.state.temperature ::
        (if disableHumidity = true then [] else [HostUpdate.humidity u.state.humidity]) }

/-- The cache after a sequence of timer ticks, each tick given the outcome of
its HTTP GET. -/
def runTicks (disableHumidity : Bool) (st : AccessoryState) : List HttpOutcome → AccessoryState
  | [] => st
  | out :: rest => runTicks disableHumidity (tick disableHumidity st out).state rest

/-- Result of a characteristic getter call: the value returned to the host,
the accessory state after the call, and the log entry emitted. -/
structure GetterResult where
  value : Js
  state : AccessoryState
  logs : List LogEntry

/-- `getCurrentTemperature` (source lines 123-127): reads
`accessoryState.temperature`, logs it, returns it; no assignment to the
accessory state occurs in the method body. -/
def getCurrentTemperature (st : AccessoryState) : GetterResult :=
  { value := st.temperature
    state := st
    logs := [.getCurrentTemperatureValue st.temperature] }

/-- `getCurrentRelativeHumidity` (source lines 129-133): reads
`accessoryState.humidity`, logs it, returns it; no assignment to the
accessory state occurs in the method body. -/
def getCurrentRelativeHumidity (st : AccessoryState) : GetterResult :=
  { value := st.humidity
    state := st
    logs := [.getCurrentRelativeHumidityValue st.humidity] }

/-- The slice of `AccessoryConfig` the claims depend on: the `refresh` key
(a JSON number when present) and the `disableHumidity` key.  The remaining
keys read by the constructor (`name`, `url`, `manufacturer`, `model`,
`serial`) are pass-through metadata strings involved in no claim. -/
structure Config where
  refresh : Option ℚ
  disableHumidity : Option Bool

/-- Line 56: `this.refresh_interval = config.refresh || 30`.  JavaScript
`||` takes the default when the left side is falsy: a missing key or the
number 0.  (`NaN`, the only other falsy number, has no rational counterpart
and does not arise from a JSON config file.) -/
def refresh_interval (c : Config) : ℚ :=
  match c.refresh with
  | none => 30
  | some r => if r = 0 then 30 else r

/-- Line 58: `this.disableHumidity = config.disableHumidity || false`. -/
def disableHumidityFlag (c : Config) : Bool :=
  c.disableHumidity.getD false

/-- `getRefreshIntervalInMillis` (source lines 164-166):
`this.refresh_interval * 1000`. -/
def getRefreshIntervalInMillis (c : Config) : ℚ :=
  refresh_interval c * 1000

/-- The three kinds of service the accessory can expose. -/
inductive ServiceKind where
  | information
  | temperatureSensor
  | humiditySensor
deriving DecidableEq

/-- `getServices` (source lines 111-121): always `[informationService,
temperatureService]`; `humidityService` is pushed only when
`disableHumidity !== true`. -/
def getServices (disableHumidity : Bool) : List ServiceKind :=
  let services := [ServiceKind.information, ServiceKind.temperatureSensor]
  if disableHumidity = true then services else services ++ [ServiceKind.humiditySensor]

/-- The characteristic read handlers the constructor can register via
`onGet`. -/
inductive CharacteristicGetter where
  | currentTemperature
  | currentRelativeHumidity
deriving DecidableEq

/-- The `onGet` handlers registered by the constructor (source lines 60-72):
`CurrentTemperature` always; `CurrentRelativeHumidity` only when
`disableHumidity !== true`. -/
def registeredGetters (disableHumidity : Bool) : List CharacteristicGetter :=
  CharacteristicGetter.currentTemperature ::
    (if disableHumidity = true then [] else [CharacteristicGetter.currentRelativeHumidity])

/-- The value `callServer` resolved with on this outcome, `none` when it
rejected. -/
def deliveredReading (out : HttpOutcome) : Option Js :=
  match callServer out with
  | .ok data => some data
  | .error _ => none

/-- The value delivered by the last resolved fetch of a tick sequence,
`none` when every fetch in the sequence rejected. -/
def lastDelivered : List HttpOutcome → Option Js
  | [] => none
  | out :: rest =>
      match lastDelivered rest with
      | some d => some d
      | none => deliveredReading out

/-- The cache produced by storing a delivered value: exactly the two
assignments of `updateAllStates`'s `then` callback. -/
def cacheOf (data : Js) : AccessoryState :=
  { temperature := data.get "temperature"
    humidity := data.get "humidity" }

/-- The cache an initially-default accessory should hold after a tick
sequence: the stored form of the last delivered value, or the initial
zero state when no fetch ever resolved. -/
def cacheAfterDelivered : Option Js → AccessoryState
  | none => initialAccessoryState
  | some data => cacheOf data

/-! ### Helper lemmas -/

lemma tick_state_of_ok {out : HttpOutcome} {data : Js}
    (h : callServer out = Except.ok data) (dh : Bool) (st : AccessoryState) :
    (tick dh st out).state = cacheOf data := by
  simp [tick, updateAllStates, h, cacheOf]

lemma tick_state_of_error {out : HttpOutcome} {e : JsError}
    (h : callServer out = Except.error e) (dh : Bool) (st : AccessoryState) :
    (tick dh st out).state = st := by
  simp [tick, updateAllStates, h]

lemma runTicks_eq (dh : Bool) (outs : List HttpOutcome) :
    ∀ st : AccessoryState,
      runTicks dh st outs =
        match lastDelivered outs with
        | none => st
        | some d => cacheOf d := by
  induction outs with
  | nil => intro st; rfl
  | cons out rest ih =>
      intro st
      have h1 : runTicks dh st (out :: rest) = runTicks dh (tick dh st out).state rest := rfl
      rw [h1, ih]
      cases hrest : lastDelivered rest with
      | some d => simp [lastDelivered, hrest]
      | none =>
          cases hout : callServer out with
          | ok data =>
              simp [lastDelivered, hrest, deliveredReading, hout, tick_state_of_ok hout]
          | error e =>
              simp [lastDelivered, hrest, deliveredReading, hout, tick_state_of_error hout]

lemma lastDelivered_eq_none {outs : List HttpOutcome}
    (h : ∀ out ∈ outs, deliveredReading out = none) :
    lastDelivered outs = none := by
  induction outs with
  | nil => rfl
  | cons out rest ih =>
      have hrest : lastDelivered rest = none :=
        ih fun o ho => h o (List.mem_cons_of_mem _ ho)
      simp [lastDelivered, hrest, h out (List.mem_cons_self out rest)]

/-! ### Claims -/

/-- C1: over every sequence of timer ticks, the cache `accessoryState` holds
exactly the value delivered (stored field-by-field, with no validation) by
the last fetch that resolved, or the zero-value default `⟨0, 0⟩` when no
fetch has ever resolved; and a tick whose fetch rejects leaves both cache
fields exactly as they were (in particular it neither clears them nor writes
any corrupted value into them). -/
theorem cache_invariant_last_delivered :
    (∀ (dh : Bool) (outs : List HttpOutcome),
        runTicks dh initialAccessoryState outs = cacheAfterDelivered (lastDelivered outs)) ∧
    (∀ (dh : Bool) (st : AccessoryState) (out : HttpOutcome),
        deliveredReading out = none → (tick dh st out).state = st) := by
  constructor
  · intro dh outs
    rw [runTicks_eq]
    cases lastDelivered outs <;> rfl
  · intro dh st out h
    cases hout : callServer out with
    | ok data => rw [deliveredReading, hout] at h; cases h
    | error e => exact tick_state_of_error hout dh st

/-- Witness for C1 at concrete inputs: one failing tick leaves the default
cache, and the failed tick preserves the state. -/
theorem cache_invariant_last_delivered_witness :
    runTicks false initialAccessoryState [HttpOutcome.netError "boom"] =
      cacheAfterDelivered (lastDelivered [HttpOutcome.netError "boom"]) ∧
    (tick false initialAccessoryState (HttpOutcome.netError "boom")).state =
      initialAccessoryState := by
  refine ⟨cache_invariant_last_delivered.1 false _,
          cache_invariant_last_delivered.2 false _ _ ?_⟩
  rfl

/-- C10: the characteristic getters are read-only with respect to the
accessory state: calling either one returns the same `accessoryState` it was
given (the method bodies read a field, log, and return — no assignment). -/
theorem getters_preserve_state (st : AccessoryState) :
    (getCurrentTemperature st).state = st ∧
    (getCurrentRelativeHumidity st).state = st :=
  ⟨rfl, rfl⟩

/-- C4: fetch-then-read round-trip.  For every JSON body
`{"temperature": t, "humidity": h}` with numeric `t`, `h`, a successful
fetch stored by `updateAllStates` followed by the two getters returns
exactly `t` and exactly `h`, with no range validation or transformation. -/
theorem fetch_then_read_roundtrip (t h : ℚ) (st : AccessoryState) :
    (getCurrentTemperature (updateAllStates st (HttpOutcome.response 200 (Body.json
        (Js.obj [("temperature", Js.num t), ("humidity", Js.num h)])))).state).value
      = Js.num t ∧
    (getCurrentRelativeHumidity (updateAllStates st (HttpOutcome.response 200 (Body.json
        (Js.obj [("temperature", Js.num t), ("humidity", Js.num h)])))).state).value
      = Js.num h := by
  constructor <;> rfl

/-- C2 counterexample: on a concrete tick whose fetch fails (network error
"boom", fresh accessory), the tick still issues `updateCharacteristic`
calls to the host — the `then` callback on line 82 always runs because
`updateAllStates` swallows the error and resolves — refuting the claim's
"issues no update/notification call to the host". -/
theorem failed_tick_still_notifies_host :
    deliveredReading (HttpOutcome.netError "boom") = none ∧
    (tick false initialAccessoryState (HttpOutcome.netError "boom")).hostUpdates =
      [HostUpdate.temperature (Js.num 0), HostUpdate.humidity (Js.num 0)] ∧
    (tick false initialAccessoryState (HttpOutcome.netError "boom")).hostUpdates ≠ [] := by
  refine ⟨rfl, rfl, ?_⟩
  intro hcontra
  have h2 : (tick false initialAccessoryState (HttpOutcome.netError "boom")).hostUpdates =
      [HostUpdate.temperature (Js.num 0), HostUpdate.humidity (Js.num 0)] := rfl
  rw [h2] at hcontra
  exact List.noConfusion hcontra

/-- C2 amended: a tick whose fetch fails leaves the cache unchanged and
emits exactly one log entry carrying the failure description (plus the
unconditional debug line), but it still issues the usual host update calls,
pushing the unchanged cached temperature and — unless humidity is disabled —
the unchanged cached humidity. -/
theorem failed_tick_behaviour (dh : Bool) (st : AccessoryState) (out : HttpOutcome)
    (e : JsError) (h : callServer out = Except.error e) :
    (tick dh st out).state = st ∧
    (tick dh st out).logs =
      [LogEntry.updateAllStatesError e.message, LogEntry.triggeringUpdate] ∧
    (tick dh st out).hostUpdates =
      HostUpdate.temperature st.temperature ::
        (if dh = true then [] else [HostUpdate.humidity st.humidity]) := by
  refine ⟨tick_state_of_error h dh st, ?_, ?_⟩ <;>
    simp [tick, updateAllStates, h]

/-- Witness for C2's amended theorem at a concrete failing tick. -/
theorem failed_tick_behaviour_witness :
    callServer (HttpOutcome.netError "disconnected") = Except.error ⟨"disconnected"⟩ ∧
    (tick false initialAccessoryState (HttpOutcome.netError "disconnected")).state =
      initialAccessoryState ∧
    (tick false initialAccessoryState (HttpOutcome.netError "disconnected")).logs =
      [LogEntry.updateAllStatesError "disconnected", LogEntry.triggeringUpdate] ∧
    (tick false initialAccessoryState (HttpOutcome.netError "disconnected")).hostUpdates =
      HostUpdate.temperature (Js.num 0) ::
        (if false = true then [] else [HostUpdate.humidity (Js.num 0)]) := by
  have h : callServer (HttpOutcome.netError "disconnected") =
      Except.error ⟨"disconnected"⟩ := rfl
  obtain ⟨h1, h2, h3⟩ :=
    failed_tick_behaviour false initialAccessoryState (HttpOutcome.netError "disconnected")
      ⟨"disconnected"⟩ h
  exact ⟨h, h1, h2, h3⟩

/-- C3 counterexample: a 200 response whose body is not valid JSON does NOT
yield a `FetchError` — under axios's default silent JSON parsing the data is
the raw body string, the unchecked cast accepts it, and `callServer`
resolves — refuting "a 200 response whose body is not valid JSON yields a
FetchError rather than a successful reading". -/
theorem malformed_json_resolves :
    callServer (HttpOutcome.response 200 (Body.raw "not json")) =
      Except.ok (Js.str "not json") := rfl

/-- C3 amended: `callServer` rejects exactly on the transport-level failures
— network error, or non-2xx status — and resolves on every 2xx response:
with the parsed value when the body is valid JSON, and with the raw body
string (no error and no validation) when the body is malformed JSON. -/
theorem callServer_reject_characterisation :
    (∀ m : String, callServer (HttpOutcome.netError m) = Except.error ⟨m⟩) ∧
    (∀ (status : Nat) (body : Body), ¬(200 ≤ status ∧ status < 300) →
        callServer (HttpOutcome.response status body) =
          Except.error ⟨"Request failed with status code " ++ toString status⟩) ∧
    (∀ (status : Nat) (j : Js), 200 ≤ status → status < 300 →
        callServer (HttpOutcome.response status (Body.json j)) = Except.ok j) ∧
    (∀ (status : Nat) (s : String), 200 ≤ status → status < 300 →
        callServer (HttpOutcome.response status (Body.raw s)) = Except.ok (Js.str s)) := by
  refine ⟨fun m => rfl, ?_, ?_, ?_⟩
  · intro status body hstat
    simp [callServer, axiosGet, hstat]
  · intro status j h1 h2
    simp [callServer, axiosGet, h1, h2]
  · intro status s h1 h2
    simp [callServer, axiosGet, h1, h2]

/-- Witness for C3's amended theorem at concrete outcomes of each kind. -/
theorem callServer_reject_characterisation_witness :
    callServer (HttpOutcome.netError "down") = Except.error ⟨"down"⟩ ∧
    callServer (HttpOutcome.response 500 (Body.raw "oops")) =
      Except.error ⟨"Request failed with status code " ++ toString 500⟩ ∧
    callServer (HttpOutcome.response 200 (Body.json (Js.num 7))) = Except.ok (Js.num 7) ∧
    callServer (HttpOutcome.response 200 (Body.raw "nope")) = Except.ok (Js.str "nope") :=
  ⟨callServer_reject_characterisation.1 "down",
   callServer_reject_characterisation.2.1 500 (Body.raw "oops") (by decide),
   callServer_reject_characterisation.2.2.1 200 (Js.num 7) (by decide) (by decide),
   callServer_reject_characterisation.2.2.2 200 "nope" (by decide) (by decide)⟩

/-- C5: for every accessory state reachable by ticks none of whose fetches
ever resolved, both getters return 0 (the initial `accessoryState` values). -/
theorem reads_zero_before_first_success (dh : Bool) (outs : List HttpOutcome)
    (h : ∀ out ∈ outs, deliveredReading out = none) :
    (getCurrentTemperature (runTicks dh initialAccessoryState outs)).value = Js.num 0 ∧
    (getCurrentRelativeHumidity (runTicks dh initialAccessoryState outs)).value = Js.num 0 := by
  have hstate : runTicks dh initialAccessoryState outs = initialAccessoryState := by
    rw [runTicks_eq, lastDelivered_eq_none h]
  rw [hstate]
  exact ⟨rfl, rfl⟩

/-- Witness for C5 at a concrete all-failing tick sequence (one network
error, one HTTP 500). -/
theorem reads_zero_before_first_success_witness :
    (∀ out ∈ [HttpOutcome.netError "x", HttpOutcome.response 500 (Body.raw "err")],
        deliveredReading out = none) ∧
    (getCurrentTemperature (runTicks false initialAccessoryState
        [HttpOutcome.netError "x", HttpOutcome.response 500 (Body.raw "err")])).value
      = Js.num 0 ∧
    (getCurrentRelativeHumidity (runTicks false initialAccessoryState
        [HttpOutcome.netError "x", HttpOutcome.response 500 (Body.raw "err")])).value
      = Js.num 0 := by
  have hyp : ∀ out ∈ [HttpOutcome.netError "x", HttpOutcome.response 500 (Body.raw "err")],
      deliveredReading out = none := by
    intro out hout
    rcases List.mem_cons.mp hout with rfl | hout
    · rfl
    rcases List.mem_cons.mp hout with rfl | hout
    · rfl
    · exact absurd hout (List.not_mem_nil _)
  obtain ⟨h1, h2⟩ := reads_zero_before_first_success false _ hyp
  exact ⟨hyp, h1, h2⟩

/-- C6: the effective polling period in milliseconds is the configured
refresh value times 1000 — for any present, truthy (nonzero) refresh value —
with the default 30 used when the `refresh` key is omitted: omitted gives a
30000 ms period and `refresh = 5` gives a 5000 ms period. -/
theorem refresh_interval_millis :
    (∀ c : Config, c.refresh = none → getRefreshIntervalInMillis c = 30000) ∧
    (∀ (c : Config) (r : ℚ), c.refresh = some r → r ≠ 0 →
        getRefreshIntervalInMillis c = r * 1000) ∧
    (∀ c : Config, c.refresh = some 5 → getRefreshIntervalInMillis c = 5000) := by
  refine ⟨?_, ?_, ?_⟩
  · intro c hc
    simp [getRefreshIntervalInMillis, refresh_interval, hc]
    norm_num
  · intro c r hc hr
    simp [getRefreshIntervalInMillis, refresh_interval, hc, hr]
  · intro c hc
    simp [getRefreshIntervalInMillis, refresh_interval, hc]
    norm_num

/-- Witness for C6 at concrete configurations: `refresh` omitted, `refresh = 7`,
and `refresh = 5`. -/
theorem refresh_interval_millis_witness :
    getRefreshIntervalInMillis ⟨none, none⟩ = 30000 ∧
    getRefreshIntervalInMillis ⟨some 7, none⟩ = 7 * 1000 ∧
    getRefreshIntervalInMillis ⟨some 5, none⟩ = 5000 :=
  ⟨refresh_interval_millis.1 ⟨none, none⟩ rfl,
   refresh_interval_millis.2.1 ⟨some 7, none⟩ 7 rfl (by norm_num),
   refresh_interval_millis.2.2 ⟨some 5, none⟩ rfl⟩

/-- C7: with `disableHumidity = true` in the configuration, the humidity
service is absent from the service list, the humidity read handler is never
registered, and no tick ever pushes a humidity value to the host, whatever
the endpoint returns — yet a resolved fetch still stores the response's
`humidity` field into the cache. -/
theorem disable_humidity_policy (c : Config) (hc : c.disableHumidity = some true) :
    getServices (disableHumidityFlag c) =
      [ServiceKind.information, ServiceKind.temperatureSensor] ∧
    ServiceKind.humiditySensor ∉ getServices (disableHumidityFlag c) ∧
    registeredGetters (disableHumidityFlag c) = [CharacteristicGetter.currentTemperature] ∧
    (∀ (st : AccessoryState) (out : HttpOutcome) (v : Js),
        HostUpdate.humidity v ∉ (tick (disableHumidityFlag c) st out).hostUpdates) ∧
    (∀ (st : AccessoryState) (out : HttpOutcome) (data : Js),
        callServer out = Except.ok data →
          (tick (disableHumidityFlag c) st out).state.humidity = data.get "humidity") := by
  have hflag : disableHumidityFlag c = true := by
    simp [disableHumidityFlag, hc]
  rw [hflag]
  refine ⟨rfl, by decide, rfl, ?_, ?_⟩
  · intro st out v
    simp [tick]
  · intro st out data h
    simp [tick, updateAllStates, h]

/-- Witness for C7 at a concrete configuration, accessory state, and
response. -/
theorem disable_humidity_policy_witness :
    getServices (disableHumidityFlag ⟨none, some true⟩) =
      [ServiceKind.information, ServiceKind.temperatureSensor] ∧
    ServiceKind.humiditySensor ∉ getServices (disableHumidityFlag ⟨none, some true⟩) ∧
    registeredGetters (disableHumidityFlag ⟨none, some true⟩) =
      [CharacteristicGetter.currentTemperature] ∧
    HostUpdate.humidity (Js.num 38) ∉
      (tick (disableHumidityFlag ⟨none, some true⟩) initialAccessoryState
        (HttpOutcome.response 200 (Body.json
          (Js.obj [("temperature", Js.num 25), ("humidity", Js.num 38)])))).hostUpdates ∧
    (tick (disableHumidityFlag ⟨none, some true⟩) initialAccessoryState
        (HttpOutcome.response 200 (Body.json
          (Js.obj [("temperature", Js.num 25), ("humidity", Js.num 38)])))).state.humidity =
      (Js.obj [("temperature", Js.num 25), ("humidity", Js.num 38)]).get "humidity" := by
  obtain ⟨h1, h2, h3, h4, h5⟩ := disable_humidity_policy ⟨none, some true⟩ rfl
  exact ⟨h1, h2, h3, h4 _ _ _, h5 _ _ _ rfl⟩

/-- C8: `updateAllStates` is a total function of the fetch outcome (the
`catch` swallows every error, so the method always resolves); it returns
`true` exactly on a resolved fetch, having overwritten the cache with the
delivered values, and `false` on a rejected fetch, having left the cache
alone and logged the error message. -/
theorem updateAllStates_never_rejects :
    (∀ (st : AccessoryState) (out : HttpOutcome) (data : Js),
        callServer out = Except.ok data →
          (updateAllStates st out).updated = true ∧
          (updateAllStates st out).state = cacheOf data) ∧
    (∀ (st : AccessoryState) (out : HttpOutcome) (e : JsError),
        callServer out = Except.error e →
          (updateAllStates st out).updated = false ∧
          (updateAllStates st out).state = st ∧
          (updateAllStates st out).logs = [LogEntry.updateAllStatesError e.message]) := by
  constructor
  · intro st out data h
    refine ⟨?_, ?_⟩ <;> simp [updateAllStates, h, cacheOf]
  · intro st out e h
    refine ⟨?_, ?_, ?_⟩ <;> simp [updateAllStates, h]

/-- Witness for C8 at one resolved and one rejected concrete outcome. -/
theorem updateAllStates_never_rejects_witness :
    callServer (HttpOutcome.response 200 (Body.json (Js.num 3))) = Except.ok (Js.num 3) ∧
    (updateAllStates initialAccessoryState
        (HttpOutcome.response 200 (Body.json (Js.num 3)))).updated = true ∧
    (updateAllStates initialAccessoryState
        (HttpOutcome.response 200 (Body.json (Js.num 3)))).state = cacheOf (Js.num 3) ∧
    callServer (HttpOutcome.netError "down") = Except.error ⟨"down"⟩ ∧
    (updateAllStates initialAccessoryState (HttpOutcome.netError "down")).updated = false ∧
    (updateAllStates initialAccessoryState (HttpOutcome.netError "down")).state =
      initialAccessoryState ∧
    (updateAllStates initialAccessoryState (HttpOutcome.netError "down")).logs =
      [LogEntry.updateAllStatesError "down"] := by
  obtain ⟨h1, h2⟩ :=
    updateAllStates_never_rejects.1 initialAccessoryState
      (HttpOutcome.response 200 (Body.json (Js.num 3))) (Js.num 3) rfl
  obtain ⟨h3, h4, h5⟩ :=
    updateAllStates_never_rejects.2 initialAccessoryState
      (HttpOutcome.netError "down") ⟨"down"⟩ rfl
  exact ⟨rfl, h1, h2, rfl, h3, h4, h5⟩

/-- C9 counterexample: the configuration `refresh = 0.5` is truthy, passes
through `config.refresh || 30` unchanged, and yields a polling period of
500 ms — below 1000 ms without any default coercion — refuting "there is no
configuration producing a polling period below 1000 ms other than via the
default coercion". -/
theorem fractional_refresh_below_one_second :
    getRefreshIntervalInMillis ⟨some (1 / 2), none⟩ = 500 ∧
    getRefreshIntervalInMillis ⟨some (1 / 2), none⟩ < 1000 := by
  constructor <;> norm_num [getRefreshIntervalInMillis, refresh_interval]

/-- C9 amended: a present but falsy `refresh` (the number 0) is coerced to
the 30-second default, so the period is 30000 ms and never 0; but nonzero
non-integral (or negative) refresh values pass through unchanged, so a
configuration such as `refresh = 0.5` produces a 500 ms period — polling
periods below 1000 ms are reachable without the default coercion. -/
theorem falsy_refresh_defaults (c : Config) (hc : c.refresh = some 0) :
    getRefreshIntervalInMillis c = 30000 ∧
    getRefreshIntervalInMillis ⟨some (1 / 2), none⟩ = 500 := by
  constructor
  · simp [getRefreshIntervalInMillis, refresh_interval, hc]
    norm_num
  · norm_num [getRefreshIntervalInMillis, refresh_interval]

/-- Witness for C9's amended theorem at the concrete configuration
`refresh = 0`. -/
theorem falsy_refresh_defaults_witness :
    getRefreshIntervalInMillis ⟨some 0, none⟩ = 30000 ∧
    getRefreshIntervalInMillis ⟨some (1 / 2), none⟩ = 500 :=
  falsy_refresh_defaults ⟨some 0, none⟩ rfl

end HttpTempHum
